import Mathlib

/-
  Verification of the bcpandas bridge layer (`bcpandas/main.py`, function
  `to_sql` and its helpers) against its specification.

  The embedding models the in-memory table (`pandas.DataFrame`) as a list of
  rows of cell values, and the external collaborators (temp files, the SQL
  catalog, the DDL executor, the `bcp` process) as an environment of query
  answers / injected failures plus an ordered trace of emitted effects.
  `to_sql` is translated control-flow-faithfully from the source: in
  particular the `try/finally` cleanup block starts only after the format
  file has been written, exactly as in the source (main.py lines 329-375).
-/

namespace Bcpandas

/-- A cell value of the in-memory table: string, integer, boolean or null
(NaN/None). -/
inductive CellValue where
  | strV (s : String)
  | intV (n : Int)
  | boolV (b : Bool)
  | null
deriving DecidableEq

/-- The in-memory table: a named row index, ordered column names, and rows
(each row lists the cell values in column order). -/
structure DataFrame where
  indexName : String
  index : List CellValue
  columns : List String
  rows : List (List CellValue)
deriving DecidableEq

/-- `df.shape[0]`: the number of rows. -/
def DataFrame.nRows (df : DataFrame) : Nat := df.rows.length

/-- `df.shape[1]`: the number of columns. -/
def DataFrame.nCols (df : DataFrame) : Nat := df.columns.length

/-- `df.copy(deep=True).reset_index()` (main.py line 261): a fresh table whose
leading column holds the row index values, named by the index's name. -/
def materializeIndex (df : DataFrame) : DataFrame :=
  { indexName := df.indexName
    index := []
    columns := df.indexName :: df.columns
    rows := df.rows.enum.map (fun p => df.index.getD p.1 CellValue.null :: p.2) }

/-- The table used from main.py line 263 on: the index-materialized copy when
`index=True`, the original otherwise (main.py lines 260-261). -/
def dfPrep (index : Bool) (df : DataFrame) : DataFrame :=
  if index then materializeIndex df else df

/-- The string representation of a cell, as `str()`/CSV rendering sees it
(nulls render as the empty field). -/
def cellStr : CellValue → String
  | .strV s => s
  | .intV n => toString n
  | .boolV true => "True"
  | .boolV false => "False"
  | .null => ""

/-- Whether the character `c` occurs in the string `s`. -/
def strHasChar (s : String) (c : Char) : Bool := s.data.contains c

/-- Whether the character `c` occurs in any cell of the table. -/
def dfHasChar (df : DataFrame) (c : Char) : Bool :=
  df.rows.any (fun r => r.any (fun v => strHasChar (cellStr v) c))

/-- Modelled from the spec: the Delimiter/Quote Selector's fixed candidate
set (comma, pipe, tab, in priority order) followed by a rarely-occurring
control-character fallback (`get_delimiter` lives in `bcpandas/constants.py`,
which is not under `src/`). -/
def delimCandidates : List Char := [',', '|', '\t', '\x01']

/-- Modelled from the spec: `get_delimiter` (in `bcpandas/constants.py`, not
under `src/`) returns the first candidate delimiter absent from every cell's
string representation, and fails (here: `none`) if every candidate collides. -/
def get_delimiter (df : DataFrame) : Option Char :=
  delimCandidates.find? (fun c => !(dfHasChar df c))

/-- Modelled from the spec: the quote-character candidate set. -/
def quoteCandidates : List Char := ['\"', '\'']

/-- Modelled from the spec: `get_quotechar` (in `bcpandas/constants.py`, not
under `src/`) returns the first candidate quote character absent from the
data, and fails (here: `none`) if every candidate collides. -/
def get_quotechar (df : DataFrame) : Option Char :=
  quoteCandidates.find? (fun c => !(dfHasChar df c))

/-- `df.replace({True: 1, False: 0})` applied to a single cell
(main.py line 277). -/
def replaceBools : CellValue → CellValue
  | .boolV true => .intV 1
  | .boolV false => .intV 0
  | v => v

/-- Modelled from the spec: the fixed, explicit line terminator (`NEWLINE` in
`bcpandas/constants.py`, not under `src/`). -/
def NEWLINE : String := "\n"

/-- Modelled from the spec: minimal quoting (`csv.QUOTE_MINIMAL` with
quotechar `"` as passed at main.py lines 282-283) quotes a field only when it
contains the delimiter, the quote character or a line terminator. -/
def needsQuoting (delim : Char) (s : String) : Bool :=
  strHasChar s delim || strHasChar s '\"' || strHasChar s '\n'

/-- Modelled from the spec: render one CSV field, doubling embedded quote
characters when the field must be quoted. -/
def renderField (delim : Char) (s : String) : String :=
  if needsQuoting delim s then "\"" ++ s.replace "\"" "\"\"" ++ "\"" else s

/-- One serialized cell of the flat file: booleans are first replaced by 1/0
(main.py line 277), then rendered with minimal quoting; nulls render empty. -/
def renderCell (delim : Char) (v : CellValue) : String :=
  renderField delim (cellStr (replaceBools v))

/-- The serialized flat file at field granularity: one list of rendered
fields per data row (`to_csv` with `header=False, index=False`, main.py
lines 277-287; the physical file joins each row with the delimiter and
terminates it with `NEWLINE`). -/
def csvFields (df : DataFrame) (delim : Char) : List (List String) :=
  df.rows.map (fun r => r.map (renderCell delim))

/-- First-match lookup in the catalog's column-name → ordinal mapping
(`cols_dict`, main.py lines 299-311). -/
def lookupOrd (c : String) : List (String × Nat) → Option Nat
  | [] => none
  | (n, o) :: rest => if c = n then some o else lookupOrd c rest

/-- One record of the format file: the field's 1-based position in the flat
file, its destination-table ordinal, its terminator bytes, a host type tag
and the source column name. -/
structure FormatRecord where
  fileOrdinal : Nat
  destOrdinal : Nat
  terminator : String
  hostType : String
  colName : String
deriving DecidableEq, Inhabited

/-- Modelled from the spec: the destination ordinal of the column named
`name` sitting at 0-based file position `i`, given the optional name→ordinal
mapping. With no mapping, or an empty one, it equals the 1-based file
ordinal; otherwise it is looked up by name (the builder assumes the mapping
total on the source columns). -/
def destOrdinalOf (name : String) (i : Nat)
    (dbColsOrder : Option (List (String × Nat))) : Nat :=
  match dbColsOrder with
  | none => i + 1
  | some m => if m = [] then i + 1 else (lookupOrd name m).getD 0

/-- Modelled from the spec: `build_format_file` (in `bcpandas/utils.py`, not
under `src/`). One record per source column, in column order; the terminator
is the delimiter for every field but the last, which gets the line
terminator; the destination ordinal equals the file ordinal when no
name→ordinal mapping was supplied or the supplied mapping is empty (Fail and
Replace pass no mapping; Append against a not-yet-existing table passes the
empty mapping, since the catalog reports no columns), and otherwise is looked
up by column name in the mapping. -/
def build_format_file (df : DataFrame) (delim : Char)
    (dbColsOrder : Option (List (String × Nat))) : List FormatRecord :=
  (List.range df.columns.length).map (fun i =>
    { fileOrdinal := i + 1
      destOrdinal := destOrdinalOf (df.columns.getD i "") i dbColsOrder
      terminator := if i + 1 = df.columns.length then NEWLINE else delim.toString
      hostType := "SQLCHAR"
      colName := df.columns.getD i "" })

/-- `df.columns[df.columns.duplicated(keep=False)]` (main.py line 256): every
column name that occurs more than once, in column order. -/
def dupNames (cols : List String) : List String :=
  cols.filter (fun c => 1 < cols.count c)

/-- `extra_cols` (main.py line 316): the source columns absent from the
catalog's name→ordinal mapping, in source order. -/
def extraColumns (cols : List String) (m : List (String × Nat)) : List String :=
  cols.filter (fun c => (lookupOrd c m).isNone)

/-- Python's `str()` of an optional string, as an f-string interpolates it:
`None` renders as the four characters `None`. -/
def pyStrOfOpt : Option String → String
  | none => "None"
  | some s => s

/-- The error-file path handed to `bcp`:
`f'{error_path}/{table_name}_bcp_error.txt'` (main.py line 364). -/
def errorFilePath (errorPath : Option String) (tableName : String) : String :=
  pyStrOfOpt errorPath ++ "/" ++ tableName ++ "_bcp_error.txt"

/-- The existence policy (`if_exists`, main.py lines 197, 227-233). -/
inductive IfExists where
  | fail
  | replace
  | append
deriving DecidableEq

/-- The errors `to_sql` can raise: the Python `assert` on `sql_type`
(line 250), `BCPandasValueError`s (lines 254, 268, 270, 318, 332, and the
delimiter/quote selector failures), and failures surfaced from collaborators
(catalog queries, the format-file write, the `bcp` process). -/
inductive BcpError where
  | assertionError
  | duplicateColumns (dups : List String)
  | delimiterNotFound
  | quotecharNotFound
  | batchSizeZero
  | batchSizeTooLarge
  | catalogError
  | schemaConflict (extraCols : List String)
  | alreadyExists
  | formatWriteError
  | externalProcessError
deriving DecidableEq

/-- How one invocation of `to_sql` terminates: a normal return, or a raised
error propagating to the caller. -/
inductive Outcome where
  | ok
  | error (e : BcpError)
deriving DecidableEq

/-- The observable side effects of one invocation, in order: writing the
flat CSV scratch file (file id 0), the two catalog queries, writing the
format scratch file (file id 1), creating the destination table via the DDL
executor, invoking the `bcp` process, and deleting a scratch file. -/
inductive Effect where
  | writeCsv (content : List (List String))
  | catalogExistsQuery
  | catalogColumnsQuery
  | writeFormatFile (records : List FormatRecord)
  | createTable
  | bcpInvoke (errorFile : String) (batchSize : Option Nat)
  | removeFile (fileId : Nat)
deriving DecidableEq

/-- Whether an effect creates a scratch file. -/
def Effect.makesScratch : Effect → Bool
  | .writeCsv _ => true
  | .writeFormatFile _ => true
  | _ => false

/-- Whether an effect deletes a scratch file. -/
def Effect.removesScratch : Effect → Bool
  | .removeFile _ => true
  | _ => false

/-- The external world of one invocation: the catalog's answers (whether the
destination table exists, and its column-name → ordinal mapping), plus
injected failures of the fallible collaborators (the two catalog queries,
the format-file write, the `bcp` process). -/
structure Env where
  tableExists : Bool
  dbCols : List (String × Nat)
  existsQueryFails : Bool
  columnsQueryFails : Bool
  formatWriteFails : Bool
  bcpFails : Bool
deriving DecidableEq

/-- The `bcp(...)` call (main.py lines 354-365): emits the process
invocation carrying the interpolated error-file path, and fails iff the
external process fails. -/
def bcpStep (env : Env) (tableName : String) (batchSize : Option Nat)
    (errorPath : Option String) (pre : List Effect) : Outcome × List Effect :=
  ((if env.bcpFails then Outcome.error .externalProcessError else Outcome.ok),
   pre ++ [Effect.bcpInvoke (errorFilePath errorPath tableName) batchSize])

/-- The body of the `try` block (main.py lines 330-365): the policy dispatch
deciding create/skip/abort, followed by the `bcp` invocation. -/
def tryBody (env : Env) (tableName : String) (ifExists : IfExists)
    (batchSize : Option Nat) (errorPath : Option String) : Outcome × List Effect :=
  match ifExists with
  | .fail =>
      if env.tableExists then (Outcome.error .alreadyExists, [])
      else bcpStep env tableName batchSize errorPath [Effect.createTable]
  | .replace => bcpStep env tableName batchSize errorPath [Effect.createTable]
  | .append =>
      if env.tableExists then bcpStep env tableName batchSize errorPath []
      else bcpStep env tableName batchSize errorPath [Effect.createTable]

/-- The `finally` block (main.py lines 366-375): both scratch files are
deleted unless the debug flag is set. -/
def cleanupEffects (debug : Bool) : List Effect :=
  if debug then [] else [Effect.removeFile 0, Effect.removeFile 1]

/-- Building and writing the format file (main.py lines 324-327) followed by
the `try/finally` block. `acc` holds the effects already emitted; note that a
format-file write failure propagates without reaching the `finally` block,
exactly as in the source, where the `try` begins only at line 329. -/
def fmtAndLoad (env : Env) (df : DataFrame) (tableName : String)
    (ifExists : IfExists) (colsDict : Option (List (String × Nat)))
    (batchSize : Option Nat) (debug : Bool) (errorPath : Option String)
    (delim : Char) (acc : List Effect) : Outcome × List Effect :=
  if env.formatWriteFails then (Outcome.error .formatWriteError, acc)
  else
    let body := tryBody env tableName ifExists batchSize errorPath
    (body.1,
     acc ++ [Effect.writeFormatFile (build_format_file df delim colsDict)]
         ++ body.2 ++ cleanupEffects debug)

/-- The schema-reconciliation phase (main.py lines 293-322): the existence
query, then — under Append only — the column-ordinal query, the schema-drift
check against an existing table, and the handoff to the format-file build.
Failures here propagate without cleanup, exactly as in the source. -/
def reconcileAndLoad (env : Env) (df : DataFrame) (tableName : String)
    (ifExists : IfExists) (batchSize : Option Nat) (debug : Bool)
    (errorPath : Option String) (delim : Char) (acc : List Effect) :
    Outcome × List Effect :=
  let acc1 := acc ++ [Effect.catalogExistsQuery]
  if env.existsQueryFails then (Outcome.error .catalogError, acc1)
  else if ifExists = IfExists.append then
    let acc2 := acc1 ++ [Effect.catalogColumnsQuery]
    if env.columnsQueryFails then (Outcome.error .catalogError, acc2)
    else
      let colsDict := if env.tableExists then env.dbCols else []
      let extra := extraColumns df.columns colsDict
      if env.tableExists ∧ extra ≠ [] then
        (Outcome.error (.schemaConflict extra), acc2)
      else fmtAndLoad env df tableName ifExists (some colsDict) batchSize debug
        errorPath delim acc2
  else fmtAndLoad env df tableName ifExists none batchSize debug errorPath
    delim acc1

/-- Serialization of the flat CSV scratch file (main.py lines 274-288)
followed by the rest of the pipeline. -/
def startLoad (env : Env) (df : DataFrame) (tableName : String)
    (ifExists : IfExists) (batchSize : Option Nat) (debug : Bool)
    (errorPath : Option String) (delim : Char) : Outcome × List Effect :=
  reconcileAndLoad env df tableName ifExists batchSize debug errorPath delim
    [Effect.writeCsv (csvFields df delim)]

/-- `to_sql` (main.py lines 190-375): validation in source order (empty-table
no-op, `sql_type` assertion, duplicate-column check, index materialization,
delimiter/quote selection, batch-size checks), then serialization,
reconciliation, format-file write and the `try/finally` load-and-cleanup. -/
def to_sql (env : Env) (df : DataFrame) (tableName : String) (sqlType : String)
    (index : Bool) (ifExists : IfExists) (batchSize : Option Nat)
    (debug : Bool) (errorPath : Option String) : Outcome × List Effect :=
  if df.nRows = 0 ∨ df.nCols = 0 then (Outcome.ok, [])
  else if sqlType ≠ "table" then (Outcome.error .assertionError, [])
  else if ¬ df.columns.Nodup then
    (Outcome.error (.duplicateColumns (dupNames df.columns)), [])
  else
    match get_delimiter (dfPrep index df), get_quotechar (dfPrep index df) with
    | none, _ => (Outcome.error .delimiterNotFound, [])
    | some _, none => (Outcome.error .quotecharNotFound, [])
    | some delim, some _ =>
        match batchSize with
        | some b =>
            if b = 0 then (Outcome.error .batchSizeZero, [])
            else if b > (dfPrep index df).nRows then
              (Outcome.error .batchSizeTooLarge, [])
            else startLoad env (dfPrep index df) tableName ifExists batchSize
              debug errorPath delim
        | none => startLoad env (dfPrep index df) tableName ifExists batchSize
            debug errorPath delim

/-- The batch-size validation conditions of main.py lines 266-272: absent, or
non-zero and not exceeding the (post-materialization) row count. -/
def batchOk : Option Nat → Nat → Prop
  | none, _ => True
  | some b, n => b ≠ 0 ∧ ¬ b > n

/-- The `db_cols_order` argument `to_sql` hands to `build_format_file`
(main.py lines 296-311, 324): no mapping outside Append; under Append, the
catalog's mapping for an existing table and the empty mapping otherwise. -/
def colsDictOf (ifExists : IfExists) (env : Env) : Option (List (String × Nat)) :=
  if ifExists = IfExists.append then
    some (if env.tableExists then env.dbCols else [])
  else none

/-- Whether an effect is a `bcp` process invocation. -/
def Effect.isBcp : Effect → Bool
  | .bcpInvoke _ _ => true
  | _ => false

theorem dfPrep_true (df : DataFrame) : dfPrep true df = materializeIndex df := rfl

theorem dfPrep_false (df : DataFrame) : dfPrep false df = df := rfl

theorem dfPrep_nRows (index : Bool) (df : DataFrame) :
    (dfPrep index df).nRows = df.nRows := by
  cases index
  · rfl
  · simp [dfPrep, materializeIndex, DataFrame.nRows]

/-- Past validation (main.py lines 248-272), `to_sql` runs the
serialize/reconcile/load pipeline on the prepared table. -/
theorem to_sql_run (env : Env) (df : DataFrame) (tableName : String)
    (index : Bool) (ifExists : IfExists) (batchSize : Option Nat) (debug : Bool)
    (errorPath : Option String) (delim q : Char)
    (hr : df.nRows ≠ 0) (hc : df.nCols ≠ 0) (hnd : df.columns.Nodup)
    (hdelim : get_delimiter (dfPrep index df) = some delim)
    (hquote : get_quotechar (dfPrep index df) = some q)
    (hbatch : batchOk batchSize (dfPrep index df).nRows) :
    to_sql env df tableName "table" index ifExists batchSize debug errorPath =
      startLoad env (dfPrep index df) tableName ifExists batchSize debug
        errorPath delim := by
  unfold to_sql
  rw [if_neg (not_or.mpr ⟨hr, hc⟩), if_neg (by simp), if_neg (not_not_intro hnd),
    hdelim, hquote]
  cases batchSize with
  | none => rfl
  | some b =>
      obtain ⟨hb0, hble⟩ := hbatch
      simp only []
      rw [if_neg hb0, if_neg hble]

/-- C4: a source with zero rows or zero columns makes `to_sql` return
immediately with no effects at all: no scratch file, no catalog query, no
table creation or drop, no external process. -/
theorem C4_empty_source_noop (env : Env) (df : DataFrame) (tableName sqlType : String)
    (index : Bool) (ifExists : IfExists) (batchSize : Option Nat) (debug : Bool)
    (errorPath : Option String)
    (h : df.nRows = 0 ∨ df.nCols = 0) :
    to_sql env df tableName sqlType index ifExists batchSize debug errorPath =
      (Outcome.ok, []) := by
  unfold to_sql
  rw [if_pos h]

theorem C4_empty_source_noop_witness :
    to_sql ⟨true, [("a", 1)], false, false, false, false⟩
        ⟨"i", [], ["a"], []⟩ "t" "table" true IfExists.append (some 3) false
        (some "/e") = (Outcome.ok, []) :=
  C4_empty_source_noop _ _ _ _ _ _ _ _ _ (Or.inl rfl)

/-- C7: duplicate column names in a non-empty source raise the
duplicate-column validation error with an empty effect trace, so before any
file is written and before any catalog query. -/
theorem C7_duplicate_columns (env : Env) (df : DataFrame) (tableName : String)
    (index : Bool) (ifExists : IfExists) (batchSize : Option Nat) (debug : Bool)
    (errorPath : Option String)
    (hr : df.nRows ≠ 0) (hc : df.nCols ≠ 0) (hdup : ¬ df.columns.Nodup) :
    to_sql env df tableName "table" index ifExists batchSize debug errorPath =
      (Outcome.error (.duplicateColumns (dupNames df.columns)), []) := by
  unfold to_sql
  rw [if_neg (not_or.mpr ⟨hr, hc⟩), if_neg (by simp), if_pos hdup]

theorem C7_duplicate_columns_witness :
    to_sql ⟨false, [], false, false, false, false⟩
        ⟨"i", [], ["a", "a"], [[CellValue.intV 1, CellValue.intV 2]]⟩
        "t" "table" false IfExists.fail none false none =
      (Outcome.error (.duplicateColumns ["a", "a"]), []) :=
  C7_duplicate_columns _ _ _ _ _ _ _ _ (by decide) (by decide) (by decide)

/-- C6: a supplied batch size of zero, or one strictly greater than the row
count, is rejected with the corresponding validation error and an empty
effect trace (no scratch file, no external process). -/
theorem C6_batch_size_validation (env : Env) (df : DataFrame) (tableName : String)
    (index : Bool) (ifExists : IfExists) (debug : Bool) (errorPath : Option String)
    (delim q : Char)
    (hr : df.nRows ≠ 0) (hc : df.nCols ≠ 0) (hnd : df.columns.Nodup)
    (hdelim : get_delimiter (dfPrep index df) = some delim)
    (hquote : get_quotechar (dfPrep index df) = some q) :
    to_sql env df tableName "table" index ifExists (some 0) debug errorPath =
      (Outcome.error .batchSizeZero, []) ∧
    (∀ b, b > (dfPrep index df).nRows →
      to_sql env df tableName "table" index ifExists (some b) debug errorPath =
        (Outcome.error .batchSizeTooLarge, [])) := by
  constructor
  · unfold to_sql
    rw [if_neg (not_or.mpr ⟨hr, hc⟩), if_neg (by simp), if_neg (not_not_intro hnd),
      hdelim, hquote]
    rfl
  · intro b hb
    unfold to_sql
    rw [if_neg (not_or.mpr ⟨hr, hc⟩), if_neg (by simp), if_neg (not_not_intro hnd),
      hdelim, hquote]
    simp only []
    rw [if_neg (by omega), if_pos hb]

theorem C6_batch_size_validation_witness :
    to_sql ⟨false, [], false, false, false, false⟩
        ⟨"i", [], ["a"], [[CellValue.intV 1], [CellValue.intV 2]]⟩
        "t" "table" false IfExists.replace (some 0) false none =
      (Outcome.error .batchSizeZero, []) ∧
    to_sql ⟨false, [], false, false, false, false⟩
        ⟨"i", [], ["a"], [[CellValue.intV 1], [CellValue.intV 2]]⟩
        "t" "table" false IfExists.replace (some 5) false none =
      (Outcome.error .batchSizeTooLarge, []) :=
  ⟨(C6_batch_size_validation _ _ _ _ _ _ _ ',' '\"' (by decide) (by decide)
      (by decide) (by decide) (by decide)).1,
   (C6_batch_size_validation _ _ _ _ _ _ _ ',' '\"' (by decide) (by decide)
      (by decide) (by decide) (by decide)).2 5 (by decide)⟩

/-- C1: refuted on the code. On a schema-drift error under Append with the
debug flag unset, `to_sql` raises after writing the flat CSV scratch file but
before the `try/finally` cleanup block begins (main.py line 329), so the
trace contains a scratch-file creation and no scratch-file deletion at all:
the scratch files are not deleted on this exit path. -/
theorem C1_no_cleanup_on_schema_drift :
    to_sql ⟨true, [("a", 1)], false, false, false, false⟩
        ⟨"idx", [], ["a", "b"], [[CellValue.strV "x", CellValue.strV "y"]]⟩
        "t" "table" false IfExists.append none false none =
      (Outcome.error (.schemaConflict ["b"]),
       [Effect.writeCsv [["x", "y"]], Effect.catalogExistsQuery,
        Effect.catalogColumnsQuery]) ∧
    [Effect.writeCsv [["x", "y"]], Effect.catalogExistsQuery,
        Effect.catalogColumnsQuery].any Effect.makesScratch = true ∧
    [Effect.writeCsv [["x", "y"]], Effect.catalogExistsQuery,
        Effect.catalogColumnsQuery].any Effect.removesScratch = false := by
  decide

/-- C5: under the Fail policy. If the catalog reports the table exists, the
invocation raises the already-exists error and the trace holds no table
creation (and no drop: the model has no drop effect outside creation); if it
does not exist, the trace creates the table strictly before invoking the
bulk-copy process. -/
theorem C5_fail_policy (env : Env) (df : DataFrame) (tableName : String)
    (index : Bool) (batchSize : Option Nat) (debug : Bool)
    (errorPath : Option String) (delim q : Char)
    (hr : df.nRows ≠ 0) (hc : df.nCols ≠ 0) (hnd : df.columns.Nodup)
    (hdelim : get_delimiter (dfPrep index df) = some delim)
    (hquote : get_quotechar (dfPrep index df) = some q)
    (hbatch : batchOk batchSize (dfPrep index df).nRows)
    (hq1 : env.existsQueryFails = false) (hfmt : env.formatWriteFails = false) :
    (env.tableExists = true →
      to_sql env df tableName "table" index IfExists.fail batchSize debug errorPath =
        (Outcome.error .alreadyExists,
         [Effect.writeCsv (csvFields (dfPrep index df) delim),
          Effect.catalogExistsQuery,
          Effect.writeFormatFile (build_format_file (dfPrep index df) delim none)]
         ++ cleanupEffects debug)) ∧
    (env.tableExists = false →
      to_sql env df tableName "table" index IfExists.fail batchSize debug errorPath =
        ((if env.bcpFails then Outcome.error .externalProcessError else Outcome.ok),
         [Effect.writeCsv (csvFields (dfPrep index df) delim),
          Effect.catalogExistsQuery,
          Effect.writeFormatFile (build_format_file (dfPrep index df) delim none),
          Effect.createTable,
          Effect.bcpInvoke (errorFilePath errorPath tableName) batchSize]
         ++ cleanupEffects debug)) := by
  rw [to_sql_run env df tableName index IfExists.fail batchSize debug errorPath
    delim q hr hc hnd hdelim hquote hbatch]
  constructor
  · intro hex
    simp [startLoad, reconcileAndLoad, fmtAndLoad, tryBody, hq1, hfmt, hex]
  · intro hex
    simp [startLoad, reconcileAndLoad, fmtAndLoad, tryBody, bcpStep, hq1, hfmt, hex]

theorem C5_fail_policy_witness :
    to_sql ⟨true, [("a", 1)], false, false, false, false⟩
        ⟨"i", [], ["a"], [[CellValue.strV "z"]]⟩
        "t" "table" false IfExists.fail none false none =
      (Outcome.error .alreadyExists,
       [Effect.writeCsv (csvFields (dfPrep false ⟨"i", [], ["a"], [[CellValue.strV "z"]]⟩) ','),
        Effect.catalogExistsQuery,
        Effect.writeFormatFile
          (build_format_file (dfPrep false ⟨"i", [], ["a"], [[CellValue.strV "z"]]⟩) ',' none)]
       ++ cleanupEffects false) :=
  (C5_fail_policy ⟨true, [("a", 1)], false, false, false, false⟩
    ⟨"i", [], ["a"], [[CellValue.strV "z"]]⟩ "t" false none false none ',' '\"'
    (by decide) (by decide) (by decide) (by decide) (by decide) trivial
    rfl rfl).1 rfl

theorem extraColumns_eq_nil (cols : List String) (m : List (String × Nat)) :
    extraColumns cols m = [] ↔ ∀ c ∈ cols, (lookupOrd c m).isSome := by
  constructor
  · intro h c hc
    have hnf := List.filter_eq_nil_iff.mp h c hc
    cases ho : lookupOrd c m with
    | none => exact absurd (by simp [ho]) hnf
    | some v => simp
  · intro h
    apply List.filter_eq_nil_iff.mpr
    intro c hc
    have := h c hc
    cases ho : lookupOrd c m with
    | none => rw [ho] at this; exact absurd this (by simp)
    | some v => simp

/-- C3: under Append against an existing destination. If every source column
name has a catalog ordinal (destination a superset of the source), the
invocation completes without error; if at least one source column is missing
from the destination, it raises the schema-conflict error carrying exactly
the missing source columns, in source order. -/
theorem C3_append_schema_drift (env : Env) (df : DataFrame) (tableName : String)
    (index : Bool) (batchSize : Option Nat) (debug : Bool)
    (errorPath : Option String) (delim q : Char)
    (hr : df.nRows ≠ 0) (hc : df.nCols ≠ 0) (hnd : df.columns.Nodup)
    (hdelim : get_delimiter (dfPrep index df) = some delim)
    (hquote : get_quotechar (dfPrep index df) = some q)
    (hbatch : batchOk batchSize (dfPrep index df).nRows)
    (hex : env.tableExists = true)
    (hq1 : env.existsQueryFails = false) (hq2 : env.columnsQueryFails = false)
    (hfmt : env.formatWriteFails = false) (hbcp : env.bcpFails = false) :
    ((∀ c ∈ (dfPrep index df).columns, (lookupOrd c env.dbCols).isSome) →
      (to_sql env df tableName "table" index IfExists.append batchSize debug
        errorPath).1 = Outcome.ok) ∧
    (extraColumns (dfPrep index df).columns env.dbCols ≠ [] →
      (to_sql env df tableName "table" index IfExists.append batchSize debug
        errorPath).1 =
        Outcome.error (.schemaConflict
          (extraColumns (dfPrep index df).columns env.dbCols))) := by
  rw [to_sql_run env df tableName index IfExists.append batchSize debug
    errorPath delim q hr hc hnd hdelim hquote hbatch]
  constructor
  · intro h
    have hext : extraColumns (dfPrep index df).columns env.dbCols = [] :=
      (extraColumns_eq_nil _ _).mpr h
    simp [startLoad, reconcileAndLoad, fmtAndLoad, tryBody, bcpStep, hq1, hq2,
      hfmt, hbcp, hex, hext]
  · intro hne
    simp [startLoad, reconcileAndLoad, fmtAndLoad, tryBody, bcpStep, hq1, hq2,
      hfmt, hbcp, hex, hne]

theorem C3_append_schema_drift_witness :
    (to_sql ⟨true, [("a", 1), ("b", 2), ("c", 3)], false, false, false, false⟩
        ⟨"i", [], ["a", "b"], [[CellValue.strV "u", CellValue.strV "v"]]⟩
        "t" "table" false IfExists.append none false none).1 = Outcome.ok :=
  (C3_append_schema_drift
    ⟨true, [("a", 1), ("b", 2), ("c", 3)], false, false, false, false⟩
    ⟨"i", [], ["a", "b"], [[CellValue.strV "u", CellValue.strV "v"]]⟩
    "t" false none false none ',' '\"'
    (by decide) (by decide) (by decide) (by decide) (by decide) trivial
    rfl rfl rfl rfl rfl).1 (by decide)

theorem build_format_file_length (df : DataFrame) (delim : Char)
    (m : Option (List (String × Nat))) :
    (build_format_file df delim m).length = df.columns.length := by
  simp [build_format_file]

theorem build_format_file_get (df : DataFrame) (delim : Char)
    (m : Option (List (String × Nat))) (i : Nat)
    (h : i < (build_format_file df delim m).length) :
    (build_format_file df delim m).get ⟨i, h⟩ =
      { fileOrdinal := i + 1
        destOrdinal := destOrdinalOf (df.columns.getD i "") i m
        terminator := if i + 1 = df.columns.length then NEWLINE else delim.toString
        hostType := "SQLCHAR"
        colName := df.columns.getD i "" } := by
  simp [build_format_file, List.get_eq_getElem]

/-- The format file `to_sql` writes is emitted as a `writeFormatFile` effect
whenever the pipeline passes validation, the catalog queries succeed, the
drift check passes and the format-file write succeeds. -/
theorem writeFormatFile_mem (env : Env) (df : DataFrame) (tableName : String)
    (index : Bool) (ifExists : IfExists) (batchSize : Option Nat) (debug : Bool)
    (errorPath : Option String) (delim q : Char)
    (hr : df.nRows ≠ 0) (hc : df.nCols ≠ 0) (hnd : df.columns.Nodup)
    (hdelim : get_delimiter (dfPrep index df) = some delim)
    (hquote : get_quotechar (dfPrep index df) = some q)
    (hbatch : batchOk batchSize (dfPrep index df).nRows)
    (hq1 : env.existsQueryFails = false) (hq2 : env.columnsQueryFails = false)
    (hfmt : env.formatWriteFails = false)
    (hdrift : ifExists = IfExists.append → env.tableExists = true →
      extraColumns (dfPrep index df).columns env.dbCols = []) :
    Effect.writeFormatFile
        (build_format_file (dfPrep index df) delim (colsDictOf ifExists env)) ∈
      (to_sql env df tableName "table" index ifExists batchSize debug
        errorPath).2 := by
  rw [to_sql_run env df tableName index ifExists batchSize debug errorPath
    delim q hr hc hnd hdelim hquote hbatch]
  cases ifExists with
  | fail =>
      simp [startLoad, reconcileAndLoad, fmtAndLoad, colsDictOf, hq1, hfmt]
  | replace =>
      simp [startLoad, reconcileAndLoad, fmtAndLoad, colsDictOf, hq1, hfmt]
  | append =>
      cases hex : env.tableExists with
      | false =>
          simp [startLoad, reconcileAndLoad, fmtAndLoad, colsDictOf, hq1, hq2,
            hfmt, hex]
      | true =>
          have hext := hdrift rfl hex
          simp [startLoad, reconcileAndLoad, fmtAndLoad, colsDictOf, hq1, hq2,
            hfmt, hex, hext]

/-- C2: destination-ordinal resolution in the emitted format file. The format
file built from the prepared table and the policy-dependent mapping is
written out; each of its records carries the 1-based file ordinal, and its
destination ordinal equals the file ordinal under Fail, Replace, or Append
against a missing table, while under Append against an existing table it is
the catalog's ordinal for that column's name. -/
theorem C2_dest_ordinal_resolution (env : Env) (df : DataFrame)
    (tableName : String) (index : Bool) (ifExists : IfExists)
    (batchSize : Option Nat) (debug : Bool) (errorPath : Option String)
    (delim q : Char)
    (hr : df.nRows ≠ 0) (hc : df.nCols ≠ 0) (hnd : df.columns.Nodup)
    (hdelim : get_delimiter (dfPrep index df) = some delim)
    (hquote : get_quotechar (dfPrep index df) = some q)
    (hbatch : batchOk batchSize (dfPrep index df).nRows)
    (hq1 : env.existsQueryFails = false) (hq2 : env.columnsQueryFails = false)
    (hfmt : env.formatWriteFails = false)
    (hdrift : ifExists = IfExists.append → env.tableExists = true →
      extraColumns (dfPrep index df).columns env.dbCols = []) :
    Effect.writeFormatFile
        (build_format_file (dfPrep index df) delim (colsDictOf ifExists env)) ∈
      (to_sql env df tableName "table" index ifExists batchSize debug
        errorPath).2 ∧
    ∀ i (h : i <
        (build_format_file (dfPrep index df) delim (colsDictOf ifExists env)).length),
      ((build_format_file (dfPrep index df) delim
          (colsDictOf ifExists env)).get ⟨i, h⟩).fileOrdinal = i + 1 ∧
      (¬ (ifExists = IfExists.append ∧ env.tableExists = true) →
        ((build_format_file (dfPrep index df) delim
            (colsDictOf ifExists env)).get ⟨i, h⟩).destOrdinal = i + 1) ∧
      (ifExists = IfExists.append → env.tableExists = true →
        lookupOrd ((dfPrep index df).columns.getD i "") env.dbCols =
          some (((build_format_file (dfPrep index df) delim
            (colsDictOf ifExists env)).get ⟨i, h⟩).destOrdinal)) := by
  refine ⟨writeFormatFile_mem env df tableName index ifExists batchSize debug
    errorPath delim q hr hc hnd hdelim hquote hbatch hq1 hq2 hfmt hdrift, ?_⟩
  intro i h
  have hlen : i < (dfPrep index df).columns.length := by
    rw [build_format_file_length] at h
    exact h
  rw [build_format_file_get]
  refine ⟨rfl, ?_, ?_⟩
  · intro hno
    cases hIE : ifExists with
    | fail => simp [destOrdinalOf, colsDictOf]
    | replace => simp [destOrdinalOf, colsDictOf]
    | append =>
        have hex : env.tableExists = false := by
          cases hexb : env.tableExists with
          | false => rfl
          | true => exact absurd ⟨hIE, hexb⟩ hno
        simp [destOrdinalOf, colsDictOf, hex]
  · intro hIE hex
    have hext := hdrift hIE hex
    have hmem : (dfPrep index df).columns.getD i "" ∈ (dfPrep index df).columns := by
      rw [List.getD_eq_getElem _ _ hlen]
      exact List.getElem_mem hlen
    have hsome := (extraColumns_eq_nil _ _).mp hext _ hmem
    cases ho : lookupOrd ((dfPrep index df).columns.getD i "") env.dbCols with
    | none => rw [ho] at hsome; exact absurd hsome (by simp)
    | some v =>
        have hne : env.dbCols ≠ [] := by
          intro hnil
          rw [hnil] at ho
          exact Option.noConfusion ho
        have hcd : colsDictOf ifExists env = some env.dbCols := by
          simp [colsDictOf, hIE, hex]
        rw [hcd]
        simp only [destOrdinalOf]
        rw [if_neg hne, ho]
        rfl

theorem C2_dest_ordinal_resolution_witness :
    Effect.writeFormatFile
        (build_format_file
          (dfPrep false ⟨"i", [], ["a", "b"], [[CellValue.strV "u", CellValue.strV "v"]]⟩)
          ','
          (colsDictOf IfExists.append
            ⟨true, [("a", 2), ("b", 1)], false, false, false, false⟩)) ∈
      (to_sql ⟨true, [("a", 2), ("b", 1)], false, false, false, false⟩
        ⟨"i", [], ["a", "b"], [[CellValue.strV "u", CellValue.strV "v"]]⟩
        "t" "table" false IfExists.append none false none).2 :=
  (C2_dest_ordinal_resolution
    ⟨true, [("a", 2), ("b", 1)], false, false, false, false⟩
    ⟨"i", [], ["a", "b"], [[CellValue.strV "u", CellValue.strV "v"]]⟩
    "t" false IfExists.append none false none ',' '\"'
    (by decide) (by decide) (by decide) (by decide) (by decide) trivial
    rfl rfl rfl (fun _ _ => by decide)).1

theorem fmtAndLoad_trace_prefix (env : Env) (df : DataFrame) (tableName : String)
    (ifExists : IfExists) (colsDict : Option (List (String × Nat)))
    (batchSize : Option Nat) (debug : Bool) (errorPath : Option String)
    (delim : Char) (acc : List Effect) :
    ∃ rest, (fmtAndLoad env df tableName ifExists colsDict batchSize debug
      errorPath delim acc).2 = acc ++ rest := by
  by_cases hf : env.formatWriteFails = true
  · exact ⟨[], by simp [fmtAndLoad, hf]⟩
  · refine ⟨[Effect.writeFormatFile (build_format_file df delim colsDict)] ++
      (tryBody env tableName ifExists batchSize errorPath).2 ++
      cleanupEffects debug, ?_⟩
    simp [fmtAndLoad, hf]

theorem reconcileAndLoad_trace_prefix (env : Env) (df : DataFrame)
    (tableName : String) (ifExists : IfExists) (batchSize : Option Nat)
    (debug : Bool) (errorPath : Option String) (delim : Char)
    (acc : List Effect) :
    ∃ rest, (reconcileAndLoad env df tableName ifExists batchSize debug
      errorPath delim acc).2 = acc ++ rest := by
  by_cases h1 : env.existsQueryFails = true
  · exact ⟨[Effect.catalogExistsQuery], by simp [reconcileAndLoad, h1]⟩
  · by_cases h2 : ifExists = IfExists.append
    · subst h2
      by_cases h3 : env.columnsQueryFails = true
      · exact ⟨[Effect.catalogExistsQuery, Effect.catalogColumnsQuery],
          by simp [reconcileAndLoad, h1, h3]⟩
      · by_cases h4 : env.tableExists = true ∧
            extraColumns df.columns
              (if env.tableExists = true then env.dbCols else []) ≠ []
        · obtain ⟨hex, hne⟩ := h4
          rw [if_pos hex] at hne
          exact ⟨[Effect.catalogExistsQuery, Effect.catalogColumnsQuery],
            by simp [reconcileAndLoad, h1, h3, hex, hne]⟩
        · obtain ⟨r, hr2⟩ := fmtAndLoad_trace_prefix env df tableName
            IfExists.append
            (some (if env.tableExists = true then env.dbCols else []))
            batchSize debug errorPath delim
            (acc ++ [Effect.catalogExistsQuery, Effect.catalogColumnsQuery])
          refine ⟨[Effect.catalogExistsQuery, Effect.catalogColumnsQuery] ++ r, ?_⟩
          simp only [reconcileAndLoad, h1, h3, h4, if_neg h4, ite_false,
            ite_true, Bool.false_eq_true, if_false]
          simp only [List.append_assoc] at hr2 ⊢
          simpa using hr2
    · obtain ⟨r, hr2⟩ := fmtAndLoad_trace_prefix env df tableName ifExists none
        batchSize debug errorPath delim (acc ++ [Effect.catalogExistsQuery])
      refine ⟨[Effect.catalogExistsQuery] ++ r, ?_⟩
      simp only [reconcileAndLoad, h1, h2, if_neg h2, ite_false, ite_true,
        Bool.false_eq_true, if_false]
      simp only [List.append_assoc] at hr2 ⊢
      simpa using hr2

/-- C8: with index inclusion requested, the row index becomes the leading
column of the index-materialized copy, the delimiter is selected on that
copy (the hypotheses constrain `get_delimiter`/`get_quotechar` on it), and
the very first emitted effect serializes that copy with that delimiter. The
original table is a distinct value and, the embedding being pure, is never
modified. -/
theorem C8_index_leading_column (env : Env) (df : DataFrame) (tableName : String)
    (ifExists : IfExists) (batchSize : Option Nat) (debug : Bool)
    (errorPath : Option String) (delim q : Char)
    (hr : df.nRows ≠ 0) (hc : df.nCols ≠ 0) (hnd : df.columns.Nodup)
    (hdelim : get_delimiter (materializeIndex df) = some delim)
    (hquote : get_quotechar (materializeIndex df) = some q)
    (hbatch : batchOk batchSize (materializeIndex df).nRows) :
    (materializeIndex df).columns = df.indexName :: df.columns ∧
    (to_sql env df tableName "table" true ifExists batchSize debug
        errorPath).2.head? =
      some (Effect.writeCsv (csvFields (materializeIndex df) delim)) := by
  refine ⟨rfl, ?_⟩
  rw [to_sql_run env df tableName true ifExists batchSize debug errorPath
    delim q hr hc hnd (by rw [dfPrep_true]; exact hdelim)
    (by rw [dfPrep_true]; exact hquote) (by rw [dfPrep_true]; exact hbatch)]
  rw [dfPrep_true]
  obtain ⟨rest, hre⟩ := reconcileAndLoad_trace_prefix env (materializeIndex df)
    tableName ifExists batchSize debug errorPath delim
    [Effect.writeCsv (csvFields (materializeIndex df) delim)]
  show (reconcileAndLoad env (materializeIndex df) tableName ifExists batchSize
    debug errorPath delim
    [Effect.writeCsv (csvFields (materializeIndex df) delim)]).2.head? = _
  rw [hre]
  rfl

theorem C8_index_leading_column_witness :
    (materializeIndex ⟨"myidx", [CellValue.intV 7], ["a"], [[CellValue.strV "w"]]⟩).columns =
      "myidx" :: ["a"] ∧
    (to_sql ⟨false, [], false, false, false, false⟩
        ⟨"myidx", [CellValue.intV 7], ["a"], [[CellValue.strV "w"]]⟩
        "t" "table" true IfExists.replace none false none).2.head? =
      some (Effect.writeCsv
        (csvFields (materializeIndex
          ⟨"myidx", [CellValue.intV 7], ["a"], [[CellValue.strV "w"]]⟩) ',')) :=
  C8_index_leading_column ⟨false, [], false, false, false, false⟩
    ⟨"myidx", [CellValue.intV 7], ["a"], [[CellValue.strV "w"]]⟩
    "t" IfExists.replace none false none ',' '\"'
    (by decide) (by decide) (by decide) (by decide) (by decide) trivial

theorem getD_map_eq {α β : Type} (f : α → β) (l : List α) (i : Nat) (d : α)
    (d' : β) (hd : f d = d') : (l.map f).getD i d' = f (l.getD i d) := by
  induction l generalizing i with
  | nil => simpa using hd.symm
  | cons a t ih =>
      cases i with
      | zero => rfl
      | succ n => simpa using ih n

theorem renderCell_null (delim : Char) : renderCell delim CellValue.null = "" := rfl

theorem renderCell_bool (delim : Char) (hd : delim ∈ delimCandidates) :
    renderCell delim (CellValue.boolV true) = "1" ∧
    renderCell delim (CellValue.boolV false) = "0" := by
  fin_cases hd <;> exact ⟨rfl, rfl⟩

/-- C9: the serialized flat file starts the effect trace, and within it every
boolean True cell is written as the field 1, every boolean False cell as the
field 0, and every null cell as the empty field. -/
theorem C9_bool_null_serialization (env : Env) (df : DataFrame)
    (tableName : String) (index : Bool) (ifExists : IfExists)
    (batchSize : Option Nat) (debug : Bool) (errorPath : Option String)
    (delim q : Char)
    (hr : df.nRows ≠ 0) (hc : df.nCols ≠ 0) (hnd : df.columns.Nodup)
    (hdelim : get_delimiter (dfPrep index df) = some delim)
    (hquote : get_quotechar (dfPrep index df) = some q)
    (hbatch : batchOk batchSize (dfPrep index df).nRows) :
    (∃ rest, (to_sql env df tableName "table" index ifExists batchSize debug
        errorPath).2 =
      Effect.writeCsv (csvFields (dfPrep index df) delim) :: rest) ∧
    ∀ i j,
      (((dfPrep index df).rows.getD i []).getD j CellValue.null =
          CellValue.boolV true →
        ((csvFields (dfPrep index df) delim).getD i []).getD j "" = "1") ∧
      (((dfPrep index df).rows.getD i []).getD j CellValue.null =
          CellValue.boolV false →
        ((csvFields (dfPrep index df) delim).getD i []).getD j "" = "0") ∧
      (((dfPrep index df).rows.getD i []).getD j CellValue.null =
          CellValue.null →
        ((csvFields (dfPrep index df) delim).getD i []).getD j "" = "") := by
  constructor
  · rw [to_sql_run env df tableName index ifExists batchSize debug errorPath
      delim q hr hc hnd hdelim hquote hbatch]
    obtain ⟨rest, hre⟩ := reconcileAndLoad_trace_prefix env (dfPrep index df)
      tableName ifExists batchSize debug errorPath delim
      [Effect.writeCsv (csvFields (dfPrep index df) delim)]
    exact ⟨rest, hre⟩
  · intro i j
    have hkey : ((csvFields (dfPrep index df) delim).getD i []).getD j "" =
        renderCell delim
          (((dfPrep index df).rows.getD i []).getD j CellValue.null) := by
      show ((((dfPrep index df).rows.map
        (fun r => r.map (renderCell delim))).getD i [])).getD j "" = _
      rw [getD_map_eq (fun r => r.map (renderCell delim)) _ i [] [] rfl,
        getD_map_eq (renderCell delim) _ j CellValue.null ""
          (renderCell_null delim)]
    have hdmem : delim ∈ delimCandidates := List.mem_of_find?_eq_some hdelim
    refine ⟨?_, ?_, ?_⟩ <;> intro hv <;> rw [hkey, hv]
    · exact (renderCell_bool delim hdmem).1
    · exact (renderCell_bool delim hdmem).2
    · exact renderCell_null delim

theorem C9_bool_null_serialization_witness :
    (((csvFields (dfPrep false
        ⟨"i", [], ["a", "b", "c"],
          [[CellValue.boolV true, CellValue.boolV false, CellValue.null]]⟩)
        ',').getD 0 []).getD 0 "" = "1") ∧
    (((csvFields (dfPrep false
        ⟨"i", [], ["a", "b", "c"],
          [[CellValue.boolV true, CellValue.boolV false, CellValue.null]]⟩)
        ',').getD 0 []).getD 1 "" = "0") ∧
    (((csvFields (dfPrep false
        ⟨"i", [], ["a", "b", "c"],
          [[CellValue.boolV true, CellValue.boolV false, CellValue.null]]⟩)
        ',').getD 0 []).getD 2 "" = "") :=
  ⟨((C9_bool_null_serialization ⟨false, [], false, false, false, false⟩
      ⟨"i", [], ["a", "b", "c"],
        [[CellValue.boolV true, CellValue.boolV false, CellValue.null]]⟩
      "t" false IfExists.replace none false none ',' '\"'
      (by decide) (by decide) (by decide) (by decide) (by decide) trivial).2
      0 0).1 (by decide),
   ((C9_bool_null_serialization ⟨false, [], false, false, false, false⟩
      ⟨"i", [], ["a", "b", "c"],
        [[CellValue.boolV true, CellValue.boolV false, CellValue.null]]⟩
      "t" false IfExists.replace none false none ',' '\"'
      (by decide) (by decide) (by decide) (by decide) (by decide) trivial).2
      0 1).2.1 (by decide),
   ((C9_bool_null_serialization ⟨false, [], false, false, false, false⟩
      ⟨"i", [], ["a", "b", "c"],
        [[CellValue.boolV true, CellValue.boolV false, CellValue.null]]⟩
      "t" false IfExists.replace none false none ',' '\"'
      (by decide) (by decide) (by decide) (by decide) (by decide) trivial).2
      0 2).2.2 (by decide)⟩

theorem strAppend_assoc (s t u : String) : s ++ t ++ u = s ++ (t ++ u) := by
  rcases s with ⟨a⟩
  rcases t with ⟨b⟩
  rcases u with ⟨c⟩
  show String.mk ((a ++ b) ++ c) = String.mk (a ++ (b ++ c))
  rw [List.append_assoc]

theorem bcpStep_bcp_path (env : Env) (tableName : String) (batchSize : Option Nat)
    (errorPath : Option String) (pre : List Effect) (p : String) (bs : Option Nat)
    (hpre : ∀ e ∈ pre, Effect.isBcp e = false)
    (h : Effect.bcpInvoke p bs ∈ (bcpStep env tableName batchSize errorPath pre).2) :
    p = errorFilePath errorPath tableName ∧ bs = batchSize := by
  simp [bcpStep] at h
  rcases h with h | h
  · exact absurd (hpre _ h) (by simp [Effect.isBcp])
  · exact ⟨h.1, h.2⟩

theorem tryBody_bcp_path (env : Env) (tableName : String) (ifExists : IfExists)
    (batchSize : Option Nat) (errorPath : Option String) (p : String)
    (bs : Option Nat)
    (h : Effect.bcpInvoke p bs ∈ (tryBody env tableName ifExists batchSize errorPath).2) :
    p = errorFilePath errorPath tableName ∧ bs = batchSize := by
  have hsingle : ∀ e ∈ [Effect.createTable], Effect.isBcp e = false := by
    intro e he
    rw [List.mem_singleton] at he
    subst he
    rfl
  have hnil : ∀ e ∈ ([] : List Effect), Effect.isBcp e = false := by
    intro e he
    exact absurd he (List.not_mem_nil e)
  cases ifExists with
  | fail =>
      by_cases hex : env.tableExists = true
      · simp [tryBody, hex] at h
      · simp only [tryBody, hex, Bool.false_eq_true, if_false, ite_false] at h
        exact bcpStep_bcp_path env tableName batchSize errorPath _ p bs hsingle h
  | replace =>
      exact bcpStep_bcp_path env tableName batchSize errorPath _ p bs hsingle h
  | append =>
      by_cases hex : env.tableExists = true
      · simp only [tryBody, hex, if_true, ite_true] at h
        exact bcpStep_bcp_path env tableName batchSize errorPath _ p bs hnil h
      · simp only [tryBody, hex, Bool.false_eq_true, if_false, ite_false] at h
        exact bcpStep_bcp_path env tableName batchSize errorPath _ p bs hsingle h

theorem fmtAndLoad_bcp_path (env : Env) (df : DataFrame) (tableName : String)
    (ifExists : IfExists) (colsDict : Option (List (String × Nat)))
    (batchSize : Option Nat) (debug : Bool) (errorPath : Option String)
    (delim : Char) (acc : List Effect) (p : String) (bs : Option Nat)
    (hacc : ∀ e ∈ acc, Effect.isBcp e = false)
    (h : Effect.bcpInvoke p bs ∈
      (fmtAndLoad env df tableName ifExists colsDict batchSize debug errorPath
        delim acc).2) :
    p = errorFilePath errorPath tableName ∧ bs = batchSize := by
  by_cases hf : env.formatWriteFails = true
  · simp [fmtAndLoad, hf] at h
    exact absurd (hacc _ h) (by simp [Effect.isBcp])
  · by_cases hdb : debug = true
    · simp [fmtAndLoad, hf, cleanupEffects, hdb] at h
      rcases h with h | h
      · exact absurd (hacc _ h) (by simp [Effect.isBcp])
      · exact tryBody_bcp_path env tableName ifExists batchSize errorPath p bs h
    · simp [fmtAndLoad, hf, cleanupEffects, hdb] at h
      rcases h with h | h
      · exact absurd (hacc _ h) (by simp [Effect.isBcp])
      · exact tryBody_bcp_path env tableName ifExists batchSize errorPath p bs h

theorem reconcileAndLoad_bcp_path (env : Env) (df : DataFrame)
    (tableName : String) (ifExists : IfExists) (batchSize : Option Nat)
    (debug : Bool) (errorPath : Option String) (delim : Char) (acc : List Effect)
    (p : String) (bs : Option Nat)
    (hacc : ∀ e ∈ acc, Effect.isBcp e = false)
    (h : Effect.bcpInvoke p bs ∈
      (reconcileAndLoad env df tableName ifExists batchSize debug errorPath
        delim acc).2) :
    p = errorFilePath errorPath tableName ∧ bs = batchSize := by
  have hacc1 : ∀ e ∈ acc ++ [Effect.catalogExistsQuery], Effect.isBcp e = false := by
    intro e he
    rcases List.mem_append.mp he with he | he
    · exact hacc _ he
    · rw [List.mem_singleton] at he
      subst he
      rfl
  have hacc2 : ∀ e ∈ acc ++ [Effect.catalogExistsQuery, Effect.catalogColumnsQuery],
      Effect.isBcp e = false := by
    intro e he
    rcases List.mem_append.mp he with he | he
    · exact hacc _ he
    · rcases List.mem_cons.mp he with he | he
      · subst he
        rfl
      · rw [List.mem_singleton] at he
        subst he
        rfl
  by_cases h1 : env.existsQueryFails = true
  · simp [reconcileAndLoad, h1] at h
    exact absurd (hacc _ h) (by simp [Effect.isBcp])
  · by_cases h2 : ifExists = IfExists.append
    · subst h2
      by_cases h3 : env.columnsQueryFails = true
      · simp [reconcileAndLoad, h1, h3] at h
        exact absurd (hacc _ h) (by simp [Effect.isBcp])
      · by_cases h4 : env.tableExists = true ∧
            extraColumns df.columns
              (if env.tableExists = true then env.dbCols else []) ≠ []
        · obtain ⟨hex, hne⟩ := h4
          rw [if_pos hex] at hne
          simp [reconcileAndLoad, h1, h3, hex, hne] at h
          exact absurd (hacc _ h) (by simp [Effect.isBcp])
        · simp only [reconcileAndLoad, h1, h3, h4, if_neg h4, ite_false,
            ite_true, Bool.false_eq_true, if_false] at h
          refine fmtAndLoad_bcp_path env df tableName IfExists.append
            (some (if env.tableExists = true then env.dbCols else []))
            batchSize debug errorPath delim
            (acc ++ [Effect.catalogExistsQuery, Effect.catalogColumnsQuery])
            p bs hacc2 ?_
          simpa using h
    · simp only [reconcileAndLoad, h1, h2, if_neg h2, ite_false, ite_true,
        Bool.false_eq_true, if_false] at h
      refine fmtAndLoad_bcp_path env df tableName ifExists none batchSize debug
        errorPath delim _ p bs hacc1 ?_
      simpa using h

theorem to_sql_bcp_path (env : Env) (df : DataFrame) (tableName sqlType : String)
    (index : Bool) (ifExists : IfExists) (batchSize : Option Nat) (debug : Bool)
    (errorPath : Option String) (p : String) (bs : Option Nat)
    (h : Effect.bcpInvoke p bs ∈
      (to_sql env df tableName sqlType index ifExists batchSize debug
        errorPath).2) :
    p = errorFilePath errorPath tableName ∧ bs = batchSize := by
  unfold to_sql at h
  split at h
  · exact absurd h (List.not_mem_nil _)
  · split at h
    · exact absurd h (List.not_mem_nil _)
    · split at h
      · exact absurd h (List.not_mem_nil _)
      · split at h
        · exact absurd h (List.not_mem_nil _)
        · exact absurd h (List.not_mem_nil _)
        · rename_i delim hq hdelim hquote
          split at h
          · rename_i b
            split at h
            · exact absurd h (List.not_mem_nil _)
            · split at h
              · exact absurd h (List.not_mem_nil _)
              · exact reconcileAndLoad_bcp_path env (dfPrep index df) tableName
                  ifExists (some b) debug errorPath delim
                  [Effect.writeCsv (csvFields (dfPrep index df) delim)] p bs
                  (by intro e he
                      rw [List.mem_singleton] at he
                      subst he
                      rfl) h
          · exact reconcileAndLoad_bcp_path env (dfPrep index df) tableName
              ifExists none debug errorPath delim
              [Effect.writeCsv (csvFields (dfPrep index df) delim)] p bs
              (by intro e he
                  rw [List.mem_singleton] at he
                  subst he
                  rfl) h

/-- C10: any `bcp` invocation `to_sql` emits carries exactly the error-file
path interpolated from the caller's `error_path`, a slash, the table name and
the suffix; with `error_path` omitted (None) the path literally begins with
the characters None followed by a slash. -/
theorem C10_error_file_path (env : Env) (df : DataFrame) (tableName sqlType : String)
    (index : Bool) (ifExists : IfExists) (batchSize : Option Nat) (debug : Bool)
    (errorPath : Option String) :
    (∀ p bs, Effect.bcpInvoke p bs ∈
        (to_sql env df tableName sqlType index ifExists batchSize debug
          errorPath).2 →
      p = pyStrOfOpt errorPath ++ "/" ++ tableName ++ "_bcp_error.txt") ∧
    (errorPath = none →
      errorFilePath errorPath tableName =
        "None/" ++ (tableName ++ "_bcp_error.txt")) := by
  constructor
  · intro p bs h
    exact (to_sql_bcp_path env df tableName sqlType index ifExists batchSize
      debug errorPath p bs h).1
  · intro hnone
    subst hnone
    show "None" ++ "/" ++ tableName ++ "_bcp_error.txt" = _
    have hlit : ("None" : String) ++ "/" = "None/" := rfl
    rw [strAppend_assoc ("None" ++ "/") tableName "_bcp_error.txt", hlit]

theorem C10_error_file_path_witness :
    errorFilePath none "sales" = "None/" ++ ("sales" ++ "_bcp_error.txt") :=
  (C10_error_file_path ⟨false, [], false, false, false, false⟩
    ⟨"i", [], ["a"], [[CellValue.strV "w"]]⟩ "sales" "table" false
    IfExists.replace none false none).2 rfl

end Bcpandas
